import Mathlib

/-!
Shallow embedding of the daily-accountability bot core: the user record,
the storage-layer operations (streak accounting, daily-log upserts, reset),
the time-lock gate, the conversation router, the onboarding flow, the
time-string parser, and the per-user reminder-scheduler step.

Calendar days are modelled as integers (one unit per day), matching the
source's `YYYY-MM-DD` strings compared by equality and by exact day
difference (`Math.floor((new Date(a) - new Date(b)) / 86400000)` on such
strings is exactly the integer day difference).  The ambient clock
(`getTodayDate()`, `new Date()`) becomes explicit `today` / `nowH` / `nowM`
parameters.  Outbound messages are modelled by a tag per `sendMessage`
call site; streak counters are integers (the schema defaults them to 0 but
nothing in the types forces non-negativity, so invariants carry it).
-/

namespace Bot

/-- JavaScript whitespace class used by `trim()` and `\s` (ASCII part plus
the common Unicode members; only the ASCII part is reachable from the
claims). -/
def isJsWhitespace (c : Char) : Bool :=
  c == ' ' || c == '\t' || c == '\n' || c == '\r' || c == '\x0b' || c == '\x0c' ||
  c.val == 0xa0 || c.val == 0xfeff || c.val == 0x2028 || c.val == 0x2029 || c.val == 0x3000

/-- `String.prototype.trim`. -/
def jsTrim (s : String) : String :=
  String.mk (((s.data.dropWhile isJsWhitespace).reverse.dropWhile isJsWhitespace).reverse)

/-- `String.prototype.toLowerCase` (ASCII; the matched keywords are ASCII). -/
def toLowerStr (s : String) : String :=
  String.mk (s.data.map Char.toLower)

/-- `String.prototype.toUpperCase` (ASCII; the time patterns are ASCII). -/
def toUpperStr (s : String) : String :=
  String.mk (s.data.map Char.toUpper)

/-- Decimal digit-string value, as `parseInt(_, 10)` / `Number` on an
all-digit string. -/
def strToNat (s : String) : Nat :=
  s.data.foldl (fun n c => n * 10 + (c.toNat - 48)) 0

/-- `String(n).padStart(2, '0')`. -/
def pad2 (n : Nat) : String :=
  if n < 10 then "0" ++ toString n else toString n

/-- `split(':')` over the character list (accumulator holds the current
chunk reversed). -/
def splitOnColon : List Char → List Char → List (List Char)
  | [], acc => [acc.reverse]
  | c :: rest, acc =>
    if c == ':' then acc.reverse :: splitOnColon rest []
    else splitOnColon rest (c :: acc)

/-- `"HH:MM".split(':').map(Number)` as a pair (hour, minute). -/
def splitHM (s : String) : Nat × Nat :=
  match splitOnColon s.data [] with
  | [h, m] => (strToNat (String.mk h), strToNat (String.mk m))
  | _ => (0, 0)

/-- One `dailyLog` entry.  Union of the fields of the daily-log schemas in
the repository (`morningMood`/`todaysPlan`/`eveningMood`/`coded`/`whatDone`/
`whyNot`/`learning` in the conversational variant, `whatCoded`/`learning`
in the alternate variant); unset fields are `none` (schema default null). -/
structure DayLog where
  date : Int
  morningMood : Option String := none
  todaysPlan : Option String := none
  eveningMood : Option String := none
  coded : Option Bool := none
  whatDone : Option String := none
  whatCoded : Option String := none
  whyNot : Option String := none
  learning : Option String := none
deriving Repr, DecidableEq

/-- The user record (the conversational schema; the alternate schema's
`awaitingResponse` is not needed by the claims). -/
structure User where
  phone : String
  name : Option String := none
  onboardingComplete : Bool := false
  onboardingStep : String := "welcome"
  morningReminderTime : String := "08:00"
  eveningReminderTime : String := "20:00"
  lastMorningReminder : Option Int := none
  lastEveningReminder : Option Int := none
  conversationState : Option String := none
  lastResponseDate : Option Int := none
  currentStreak : Int := 0
  longestStreak : Int := 0
  totalDaysCoded : Int := 0
  dailyLog : List DayLog := []
deriving Repr, DecidableEq

/-- Tag for each outbound `sendMessage` call site of the router (message
text carries no record state, so only the call site is modelled). -/
inductive Msg where
  | welcome
  | askMorningTime
  | tryMorningFormat
  | morningSet
  | tryEveningFormat
  | allSet
  | greetingAlreadyLogged
  | greetingCheckIn
  | greetingWaitUntilEvening
  | alreadyLoggedYes
  | notSoFast
  | alreadyLoggedNo
  | holdOn
  | yesWithPlan
  | yesGeneric
  | noStreakEndedHard
  | noStreakReset
  | noNoProblem
  | statusMsg
  | summaryMsg
  | noLogsYet
  | helpMsg
  | nothingToReset
  | resetWarning
  | freshStart
  | unknownCmd
  | moodPlanPrompt
  | planAck
  | eveningCheckWithPlan
  | eveningCheckGeneric
  | simpleQuestion
  | niceWhatLearned
  | celebration
  | whyNotAck
deriving Repr, DecidableEq

/-- `user.dailyLog.find(l => l.date === today)`. -/
def findLog (u : User) (today : Int) : Option DayLog :=
  u.dailyLog.find? (fun l => l.date == today)

/-- In-place mutation of the first list element satisfying `p` (the source
mutates the object returned by `Array.prototype.find`). -/
def updateFirst (p : DayLog → Bool) (f : DayLog → DayLog) : List DayLog → List DayLog
  | [] => []
  | x :: xs => if p x then f x :: xs else x :: updateFirst p f xs

/-- `createTodaysLog` (services/storage.js): push an empty entry for today
unless one exists. -/
def createTodaysLog (u : User) (today : Int) : User :=
  if (findLog u today).isNone then
    { u with dailyLog := u.dailyLog ++ [{ date := today }] }
  else u

/-- `saveMorningMood`: upsert today's entry, set its `morningMood`, advance
the conversation to `morning_plan`. -/
def saveMorningMood (u : User) (today : Int) (mood : String) : User :=
  let u1 := if (findLog u today).isSome then u
            else { u with dailyLog := u.dailyLog ++ [{ date := today }] }
  let newLog := updateFirst (fun l => l.date == today)
    (fun l => { l with morningMood := some mood }) u1.dailyLog
  { u1 with dailyLog := newLog, conversationState := some "morning_plan" }

/-- `saveTodaysPlan`: set `todaysPlan` on today's entry if present, clear
the conversation state. -/
def saveTodaysPlan (u : User) (today : Int) (plan : String) : User :=
  let newLog := updateFirst (fun l => l.date == today)
    (fun l => { l with todaysPlan := some plan }) u.dailyLog
  { u with dailyLog := newLog, conversationState := none }

/-- `saveEveningMood`: upsert today's entry, set its `eveningMood`, advance
the conversation to `evening_check`. -/
def saveEveningMood (u : User) (today : Int) (mood : String) : User :=
  let u1 := if (findLog u today).isSome then u
            else { u with dailyLog := u.dailyLog ++ [{ date := today }] }
  let newLog := updateFirst (fun l => l.date == today)
    (fun l => { l with eveningMood := some mood }) u1.dailyLog
  { u1 with dailyLog := newLog, conversationState := some "evening_check" }

/-- `saveCodedResponse` (services/storage.js lines 121-153): upsert today's
entry with `coded`, then update the streak fields exactly as the source
does (`diffDays === 1 ? currentStreak + 1 : 1` on a truthy last date), bump
`totalDaysCoded`, raise `longestStreak` if exceeded, set the follow-up
conversation state and `lastResponseDate`. -/
def saveCodedResponse (u : User) (today : Int) (coded : Bool) : User :=
  let u1 :=
    if (findLog u today).isSome then
      let newLog := updateFirst (fun l => l.date == today)
        (fun l => { l with coded := some coded }) u.dailyLog
      { u with dailyLog := newLog }
    else
      { u with dailyLog := u.dailyLog ++ [{ date := today, coded := some coded }] }
  if coded then
    let cs : Int :=
      match u1.lastResponseDate with
      | some lastDate => if today - lastDate == 1 then u1.currentStreak + 1 else 1
      | none => 1
    let longest : Int := if cs > u1.longestStreak then cs else u1.longestStreak
    { u1 with
      currentStreak := cs,
      totalDaysCoded := u1.totalDaysCoded + 1,
      longestStreak := longest,
      conversationState := some "what_done",
      lastResponseDate := some today }
  else
    { u1 with
      currentStreak := 0,
      conversationState := some "why_not",
      lastResponseDate := some today }

/-- `saveWhyNot`: set `whyNot` on today's entry if present, clear state. -/
def saveWhyNot (u : User) (today : Int) (reason : String) : User :=
  let newLog := updateFirst (fun l => l.date == today)
    (fun l => { l with whyNot := some reason }) u.dailyLog
  { u with dailyLog := newLog, conversationState := none }

/-- `saveWhatDone`: set `whatDone` on today's entry if present, advance to
`what_learned`. -/
def saveWhatDone (u : User) (today : Int) (text : String) : User :=
  let newLog := updateFirst (fun l => l.date == today)
    (fun l => { l with whatDone := some text }) u.dailyLog
  { u with dailyLog := newLog, conversationState := some "what_learned" }

/-- `saveWhatLearned`: set `learning` on today's entry if present, clear
state. -/
def saveWhatLearned (u : User) (today : Int) (text : String) : User :=
  let newLog := updateFirst (fun l => l.date == today)
    (fun l => { l with learning := some text }) u.dailyLog
  { u with dailyLog := newLog, conversationState := none }

/-- `hasLoggedToday`: today's entry exists and its `coded` is neither null
nor undefined. -/
def hasLoggedToday (u : User) (today : Int) : Bool :=
  ((findLog u today).bind (fun l => l.coded)).isSome

/-- `canLogCompletion` (services/storage.js lines 198-212): the time-lock
gate.  The source formats the current time as `HH:MM` and splits both it
and `eveningReminderTime` back into numbers; the current hour and minute
are passed here directly. -/
def canLogCompletion (u : User) (nowH nowM : Nat) : Bool :=
  let e := splitHM u.eveningReminderTime
  if nowH > e.1 then true
  else if nowH == e.1 && nowM >= e.2 then true
  else false

/-- `resetUserData` (services/storage.js lines 214-223). -/
def resetUserData (u : User) : User :=
  { u with
    currentStreak := 0,
    longestStreak := 0,
    totalDaysCoded := 0,
    dailyLog := [],
    lastResponseDate := none,
    conversationState := none }

/-- Setter `setUserName`. -/
def setUserName (u : User) (n : String) : User := { u with name := some n }

/-- Setter `setMorningReminderTime`. -/
def setMorningReminderTime (u : User) (t : String) : User :=
  { u with morningReminderTime := t }

/-- Setter `setEveningReminderTime`. -/
def setEveningReminderTime (u : User) (t : String) : User :=
  { u with eveningReminderTime := t }

/-- Setter `setConversationState`. -/
def setConversationState (u : User) (s : Option String) : User :=
  { u with conversationState := s }

/-- `setOnboardingStep`: also flips `onboardingComplete` when the step
reaches `complete`. -/
def setOnboardingStep (u : User) (s : String) : User :=
  let u1 : User := { u with onboardingStep := s }
  if s == "complete" then { u1 with onboardingComplete := true } else u1

/-- `markMorningReminderSent`. -/
def markMorningReminderSent (u : User) (d : Int) : User :=
  { u with lastMorningReminder := some d }

/-- `markEveningReminderSent`. -/
def markEveningReminderSent (u : User) (d : Int) : User :=
  { u with lastEveningReminder := some d }

/-- `updateStreak` from the alternate storage variant (part_002 lines
233-267): same accounting except a day difference of exactly 1 increments,
a difference greater than 1 restarts at 1, and any other difference (in
particular 0) leaves `currentStreak` untouched. -/
def updateStreak (u : User) (today : Int) (coded : Bool) : User :=
  if coded then
    let cs : Int :=
      match u.lastResponseDate with
      | some lastDate =>
          let diffDays := today - lastDate
          if diffDays == 1 then u.currentStreak + 1
          else if diffDays > 1 then 1
          else u.currentStreak
      | none => 1
    let longest : Int := if cs > u.longestStreak then cs else u.longestStreak
    { u with currentStreak := cs, longestStreak := longest, lastResponseDate := some today }
  else
    { u with currentStreak := 0, lastResponseDate := some today }

/-- `addDailyLog` from the alternate storage variant (part_002 lines
163-192): replace or append the whole entry for `date`, then keep only the
last 90 entries (`slice(-90)`). -/
def addDailyLog (u : User) (date : Int) (coded : Bool)
    (whatCodedArg learningArg : Option String) : User :=
  let entry : DayLog := { date := date, coded := some coded,
                          whatCoded := whatCodedArg, learning := learningArg }
  let newLog :=
    match u.dailyLog.findIdx? (fun l => l.date == date) with
    | some i => u.dailyLog.set i entry
    | none => u.dailyLog ++ [entry]
  let capped := if newLog.length > 90 then newLog.drop (newLog.length - 90) else newLog
  { u with dailyLog := capped }

/-- Split a character list into its leading run of ASCII digits and the
rest. -/
def digitsPrefix (cs : List Char) : List Char × List Char :=
  (cs.takeWhile Char.isDigit, cs.dropWhile Char.isDigit)

/-- Tail of the first time pattern after the minute digits: skip
whitespace, then accept end of input (no meridiem), a literal AM
(`some false`) or a literal PM (`some true`); anything else fails.  The
input has already been uppercased. -/
def matchMeridiemEnd (cs : List Char) : Option (Option Bool) :=
  let rest := cs.dropWhile isJsWhitespace
  if rest == [] then some none
  else if rest == ['A', 'M'] then some (some false)
  else if rest == ['P', 'M'] then some (some true)
  else none

/-- First pattern of `parseTime`: one or two digits, a colon, exactly two
digits, optional whitespace, an optional AM/PM, end of input.  (With a
longer digit run the pattern cannot match: every backtracking split leaves
a digit where the colon or the meridiem must start.)  Returns hour value,
minute value and the optional meridiem. -/
def matchPattern1 (cs : List Char) : Option (Nat × Nat × Option Bool) :=
  let (hd, rest1) := digitsPrefix cs
  if hd.length == 0 || hd.length > 2 then none
  else
    match rest1 with
    | ':' :: rest2 =>
      let (md, rest3) := digitsPrefix rest2
      if md.length != 2 then none
      else
        match matchMeridiemEnd rest3 with
        | none => none
        | some mer => some (strToNat (String.mk hd), strToNat (String.mk md), mer)
    | _ => none

/-- Second pattern of `parseTime`: one or two digits, optional whitespace,
a mandatory AM/PM, end of input.  Returns hour value and whether the
meridiem is PM. -/
def matchPattern2 (cs : List Char) : Option (Nat × Bool) :=
  let (hd, rest1) := digitsPrefix cs
  if hd.length == 0 || hd.length > 2 then none
  else
    let rest := rest1.dropWhile isJsWhitespace
    if rest == ['A', 'M'] then some (strToNat (String.mk hd), false)
    else if rest == ['P', 'M'] then some (strToNat (String.mk hd), true)
    else none

/-- Meridiem adjustment of `parseTime`: PM adds 12 except at 12, AM maps
12 to 0. -/
def adjustMeridiem (hours : Nat) (isPM : Bool) : Nat :=
  if isPM && hours != 12 then hours + 12
  else if !isPM && hours == 12 then 0
  else hours

/-- Result of the second pattern including its validation (its minutes are
always 0). -/
def pattern2Result (cs : List Char) : Option String :=
  match matchPattern2 cs with
  | some (h, pm) =>
    let hours := adjustMeridiem h pm
    if hours ≤ 23 then some (pad2 hours ++ ":" ++ pad2 0) else none
  | none => none

/-- `parseTime` (utils/helpers.js lines 37-80): empty input is rejected,
the input is trimmed and uppercased, the two patterns are tried in order
(a pattern that matches but fails the 0-23 / 0-59 validation falls through
to the next), and a successful parse is formatted back as zero-padded
`HH:MM`. -/
def parseTime (timeStr : String) : Option String :=
  if timeStr == "" then none
  else
    let cs := (toUpperStr (jsTrim timeStr)).data
    match matchPattern1 cs with
    | some (h, m, mer) =>
      let hours := match mer with
        | some pm => adjustMeridiem h pm
        | none => h
      if hours ≤ 23 && m ≤ 59 then some (pad2 hours ++ ":" ++ pad2 m)
      else pattern2Result cs
    | none => pattern2Result cs

/-- `handleOnboarding` (services/messageHandler.js lines 93-165): strict
linear onboarding; a time step whose input fails `parseTime` replies with
a format hint and returns without touching the record. -/
def handleOnboarding (u : User) (input : String) : User × List Msg :=
  match u.onboardingStep with
  | "welcome" => (setOnboardingStep u "ask_name", [Msg.welcome])
  | "ask_name" =>
    let n := (input.splitOn " ").headD ""
    (setOnboardingStep (setUserName u n) "ask_morning", [Msg.askMorningTime])
  | "ask_morning" =>
    match parseTime input with
    | none => (u, [Msg.tryMorningFormat])
    | some t => (setOnboardingStep (setMorningReminderTime u t) "ask_evening", [Msg.morningSet])
  | "ask_evening" =>
    match parseTime input with
    | none => (u, [Msg.tryEveningFormat])
    | some t => (setOnboardingStep (setEveningReminderTime u t) "complete", [Msg.allSet])
  | _ => (u, [])

/-- `handleGreeting`: already-logged notice, or time-lock notice, or open
the evening check-in. -/
def handleGreeting (u : User) (today : Int) (nowH nowM : Nat) : User × List Msg :=
  if hasLoggedToday u today then (u, [Msg.greetingAlreadyLogged])
  else if canLogCompletion u nowH nowM then
    (setConversationState u (some "evening_check"), [Msg.greetingCheckIn])
  else (u, [Msg.greetingWaitUntilEvening])

/-- `handleYes` (services/messageHandler.js lines 352-371): record the
positive answer unconditionally, reply according to whether a plan was
captured this morning. -/
def handleYes (u : User) (today : Int) : User × List Msg :=
  let u1 := saveCodedResponse u today true
  let plan := (findLog u1 today).bind (fun l => l.todaysPlan)
  (u1, [if plan.isSome then Msg.yesWithPlan else Msg.yesGeneric])

/-- `handleNo` (services/messageHandler.js lines 373-402): record the
negative answer unconditionally; the reply varies with the prior streak
(presentation only). -/
def handleNo (u : User) (today : Int) : User × List Msg :=
  let streak := u.currentStreak
  let u1 := saveCodedResponse u today false
  (u1, [if streak ≥ 7 then Msg.noStreakEndedHard
        else if streak > 0 then Msg.noStreakReset
        else Msg.noNoProblem])

/-- `handleYesCommand` (services/messageHandler.js lines 312-330): the
idle-state affirmative day-log, guarded by the already-logged check and
the time-lock gate. -/
def handleYesCommand (u : User) (today : Int) (nowH nowM : Nat) : User × List Msg :=
  if hasLoggedToday u today then (u, [Msg.alreadyLoggedYes])
  else if !canLogCompletion u nowH nowM then (u, [Msg.notSoFast])
  else handleYes u today

/-- `handleNoCommand` (services/messageHandler.js lines 332-350): the
idle-state negative day-log, with the same two guards. -/
def handleNoCommand (u : User) (today : Int) (nowH nowM : Nat) : User × List Msg :=
  if hasLoggedToday u today then (u, [Msg.alreadyLoggedNo])
  else if !canLogCompletion u nowH nowM then (u, [Msg.holdOn])
  else handleNo u today

/-- `handleStatus`: read-only stats reply. -/
def handleStatus (u : User) : User × List Msg := (u, [Msg.statusMsg])

/-- `handleSummary`: read-only weekly summary reply. -/
def handleSummary (u : User) : User × List Msg :=
  (u, [if u.dailyLog.isEmpty then Msg.noLogsYet else Msg.summaryMsg])

/-- `handleHelp`: read-only help reply. -/
def handleHelp (u : User) : User × List Msg := (u, [Msg.helpMsg])

/-- `handleReset` (services/messageHandler.js lines 458-470): preview only,
no mutation; the destructive reset needs a separate `confirm reset`
message. -/
def handleReset (u : User) : User × List Msg :=
  if u.currentStreak == 0 && u.longestStreak == 0 then (u, [Msg.nothingToReset])
  else (u, [Msg.resetWarning])

/-- `handleUnknown`: fallback reply. -/
def handleUnknown (u : User) : User × List Msg := (u, [Msg.unknownCmd])

/-- `handleConversation` (services/messageHandler.js lines 169-276): the
non-idle states consume the inbound text as the pending answer; in
`evening_check` a yes/no is recorded via `handleYes`/`handleNo` with no
guard, and anything else re-prompts. -/
def handleConversation (u : User) (input inputLower : String) (today : Int) :
    User × List Msg :=
  match u.conversationState.getD "" with
  | "morning_mood" => (saveMorningMood u today input, [Msg.moodPlanPrompt])
  | "morning_plan" => (saveTodaysPlan u today input, [Msg.planAck])
  | "evening_mood" =>
    let u1 := saveEveningMood u today input
    let plan := (findLog u1 today).bind (fun l => l.todaysPlan)
    (u1, [if plan.isSome then Msg.eveningCheckWithPlan else Msg.eveningCheckGeneric])
  | "evening_check" =>
    if inputLower == "yes" || inputLower == "y" then handleYes u today
    else if inputLower == "no" || inputLower == "n" then handleNo u today
    else (u, [Msg.simpleQuestion])
  | "what_done" => (saveWhatDone u today input, [Msg.niceWhatLearned])
  | "what_learned" => (saveWhatLearned u today input, [Msg.celebration])
  | "why_not" => (saveWhyNot u today input, [Msg.whyNotAck])
  | _ => (setConversationState u none, [Msg.unknownCmd])

/-- `handleMessage` (services/messageHandler.js lines 35-89): onboarding
first, then any open conversation state, then the idle keyword commands on
the trimmed lowercased input. -/
def handleMessage (u : User) (text : String) (today : Int) (nowH nowM : Nat) :
    User × List Msg :=
  let input := jsTrim text
  let inputLower := toLowerStr input
  if !u.onboardingComplete then handleOnboarding u input
  else if u.conversationState.isSome then handleConversation u input inputLower today
  else if inputLower == "hi" || inputLower == "hello" || inputLower == "hey" then
    handleGreeting u today nowH nowM
  else if inputLower == "yes" || inputLower == "y" || inputLower == "done" then
    handleYesCommand u today nowH nowM
  else if inputLower == "no" || inputLower == "n" then
    handleNoCommand u today nowH nowM
  else if inputLower == "status" || inputLower == "stats" then handleStatus u
  else if inputLower == "summary" || inputLower == "week" then handleSummary u
  else if inputLower == "help" then handleHelp u
  else if inputLower == "reset" then handleReset u
  else if inputLower == "confirm reset" then (resetUserData u, [Msg.freshStart])
  else handleUnknown u

/-- `getUsersForMorningReminder` (services/storage.js lines 22-28) as a
per-user eligibility predicate: onboarded, morning time equals the current
time, and not already notified today (`$ne` today or null). -/
def morningEligible (u : User) (currentTime : String) (today : Int) : Bool :=
  u.onboardingComplete && u.morningReminderTime == currentTime &&
    u.lastMorningReminder != some today

/-- `getUsersForEveningReminder` (services/storage.js lines 30-36) as a
per-user eligibility predicate. -/
def eveningEligible (u : User) (currentTime : String) (today : Int) : Bool :=
  u.onboardingComplete && u.eveningReminderTime == currentTime &&
    u.lastEveningReminder != some today

/-- `sendMorningReminder` (services/scheduler.js lines 29-62): create
today's log, attempt the send; on success mark `lastMorningReminder` and
open the `morning_mood` state; a failed send leaves both untouched.  The
second component counts delivered reminders. -/
def sendMorningReminder (u : User) (today : Int) (sendOk : Bool) : User × Nat :=
  let u1 := createTodaysLog u today
  if sendOk then
    ({ u1 with lastMorningReminder := some today,
               conversationState := some "morning_mood" }, 1)
  else (u1, 0)

/-- `sendEveningReminder` (services/scheduler.js lines 67-100): skip when
today's answer is already recorded; otherwise attempt the send and on
success mark `lastEveningReminder` and open the `evening_mood` state. -/
def sendEveningReminder (u : User) (today : Int) (sendOk : Bool) : User × Nat :=
  if hasLoggedToday u today then (u, 0)
  else if sendOk then
    ({ u with lastEveningReminder := some today,
              conversationState := some "evening_mood" }, 1)
  else (u, 0)

/-- One scheduler tick restricted to one user's morning reminder: the
reminder runs only if the eligibility query matched. -/
def morningTick (u : User) (currentTime : String) (today : Int) (sendOk : Bool) :
    User × Nat :=
  if morningEligible u currentTime today then sendMorningReminder u today sendOk
  else (u, 0)

/-- One scheduler tick restricted to one user's evening reminder. -/
def eveningTick (u : User) (currentTime : String) (today : Int) (sendOk : Bool) :
    User × Nat :=
  if eveningEligible u currentTime today then sendEveningReminder u today sendOk
  else (u, 0)

/-- A sequence of same-day scheduler ticks for one user: each tick carries
the wall-clock `HH:MM` string and whether the transport send succeeds; the
second component totals the delivered morning reminders. -/
def morningTicks (u : User) (today : Int) : List (String × Bool) → User × Nat
  | [] => (u, 0)
  | t :: ts =>
    let r := morningTick u t.1 today t.2
    let rest := morningTicks r.1 today ts
    (rest.1, r.2 + rest.2)

/-- A sequence of same-day scheduler ticks for one user's evening
reminders. -/
def eveningTicks (u : User) (today : Int) : List (String × Bool) → User × Nat
  | [] => (u, 0)
  | t :: ts =>
    let r := eveningTick u t.1 today t.2
    let rest := eveningTicks r.1 today ts
    (rest.1, r.2 + rest.2)

/-- The record-mutating storage operations (services/storage.js), as one
closed type so invariants can be stated over every operation. -/
inductive Op where
  | opSaveCoded (today : Int) (coded : Bool)
  | opCreateLog (today : Int)
  | opMorningMood (today : Int) (mood : String)
  | opTodaysPlan (today : Int) (plan : String)
  | opEveningMood (today : Int) (mood : String)
  | opWhyNot (today : Int) (reason : String)
  | opWhatDone (today : Int) (text : String)
  | opWhatLearned (today : Int) (text : String)
  | opSetName (n : String)
  | opSetMorningTime (t : String)
  | opSetEveningTime (t : String)
  | opSetState (s : Option String)
  | opSetStep (s : String)
  | opMarkMorning (d : Int)
  | opMarkEvening (d : Int)
  | opReset
deriving Repr, DecidableEq

/-- Interpretation of each storage operation on the user record. -/
def applyOp : Op → User → User
  | Op.opSaveCoded today coded, u => saveCodedResponse u today coded
  | Op.opCreateLog today, u => createTodaysLog u today
  | Op.opMorningMood today mood, u => saveMorningMood u today mood
  | Op.opTodaysPlan today plan, u => saveTodaysPlan u today plan
  | Op.opEveningMood today mood, u => saveEveningMood u today mood
  | Op.opWhyNot today reason, u => saveWhyNot u today reason
  | Op.opWhatDone today text, u => saveWhatDone u today text
  | Op.opWhatLearned today text, u => saveWhatLearned u today text
  | Op.opSetName n, u => setUserName u n
  | Op.opSetMorningTime t, u => setMorningReminderTime u t
  | Op.opSetEveningTime t, u => setEveningReminderTime u t
  | Op.opSetState s, u => setConversationState u s
  | Op.opSetStep s, u => setOnboardingStep u s
  | Op.opMarkMorning d, u => markMorningReminderSent u d
  | Op.opMarkEvening d, u => markEveningReminderSent u d
  | Op.opReset, u => resetUserData u

/-- The streak invariant of the data model: both counters non-negative and
the current streak bounded by the longest. -/
def streakInv (u : User) : Prop :=
  0 ≤ u.currentStreak ∧ u.currentStreak ≤ u.longestStreak

instance (u : User) : Decidable (streakInv u) := by
  unfold streakInv; infer_instance

/-- A baseline record as `getUserData` creates it (schema defaults). -/
def userBase : User := { phone := "233000000000" }

/-- Record with an answered streak of 5 whose last response day equals the
current day (the zero-difference re-entry). -/
def zeroDiffUser : User :=
  { userBase with currentStreak := 5, longestStreak := 5, lastResponseDate := some 100 }

/-- The streak value `saveCodedResponse` computes (the bare right-hand
sides of its `currentStreak` assignments), named so the field lemmas can
state it once. -/
def newStreakVal (u : User) (today : Int) (coded : Bool) : Int :=
  if coded then
    match u.lastResponseDate with
    | some lastDate => if today - lastDate == 1 then u.currentStreak + 1 else 1
    | none => 1
  else 0

/-- Concrete record for witnesses: answered on day 4 with streak 2,
longest 3. -/
def c2User : User :=
  { userBase with currentStreak := 2, longestStreak := 3, lastResponseDate := some 4 }

/-- Concrete record paused at the morning-time onboarding step. -/
def askMorningUser : User := { userBase with onboardingStep := "ask_morning" }

/-- Concrete record whose daily log already holds 90 entries (all dated
day 0). -/
def fullLogUser : User :=
  { userBase with dailyLog := List.replicate 90 { date := 0 } }

/-- Concrete onboarded record that already answered today (day 5) and
whose open conversation state is the evening check. -/
def eveningCheckUser : User :=
  { userBase with onboardingComplete := true,
                  conversationState := some "evening_check",
                  dailyLog := [{ date := 5, coded := some true }],
                  lastResponseDate := some 5 }

/-- Concrete onboarded record that already answered today (day 5), idle. -/
def loggedIdleUser : User :=
  { userBase with onboardingComplete := true,
                  dailyLog := [{ date := 5, coded := some true }],
                  lastResponseDate := some 5 }

/-- Concrete onboarded record with schema defaults, eligible for the 08:00
morning reminder. -/
def schedUser : User := { userBase with onboardingComplete := true }

/-- Frame property for the reset claim: a step keeps the daily log
non-empty (clears no history) and never lowers the longest streak. -/
def keepsLog (u v : User) : Prop :=
  (u.dailyLog ≠ [] → v.dailyLog ≠ []) ∧ u.longestStreak ≤ v.longestStreak

/-- Concrete record holding history: one logged day, streak 3/4. -/
def historyUser : User :=
  { userBase with onboardingComplete := true, currentStreak := 3, longestStreak := 4,
                  dailyLog := [{ date := 4, coded := some true }],
                  lastResponseDate := some 4, totalDaysCoded := 9 }

section Lemmas

theorem updateFirst_length (p : DayLog → Bool) (f : DayLog → DayLog) (l : List DayLog) :
    (updateFirst p f l).length = l.length := by
  induction l with
  | nil => rfl
  | cons x xs ih =>
    unfold updateFirst
    by_cases h : p x <;> simp [h, ih]

theorem find?_updateFirst_coded (today : Int) (c : Bool) (l : List DayLog) :
    (updateFirst (fun e => e.date == today) (fun e => { e with coded := some c })
        l).find? (fun e => e.date == today) =
      (l.find? (fun e => e.date == today)).map (fun e => { e with coded := some c }) := by
  induction l with
  | nil => rfl
  | cons x xs ih =>
    unfold updateFirst
    by_cases h : x.date = today
    · have hx : (x.date == today) = true := by simp [h]
      simp [hx, List.find?_cons_of_pos, h]
    · have hx : (x.date == today) = false := by simp [h]
      simp [hx, List.find?_cons_of_neg, ih]

theorem saveCodedResponse_dailyLog (u : User) (today : Int) (coded : Bool) :
    (saveCodedResponse u today coded).dailyLog =
      if (u.dailyLog.find? (fun l => l.date == today)).isSome then
        updateFirst (fun l => l.date == today) (fun l => { l with coded := some coded })
          u.dailyLog
      else u.dailyLog ++ [{ date := today, coded := some coded }] := by
  unfold saveCodedResponse findLog
  by_cases h : (u.dailyLog.find? (fun l => l.date == today)).isSome
  case pos =>
    cases coded <;> simp only [h, if_true, ite_true] <;> try rfl
  case neg =>
    rw [Bool.not_eq_true] at h
    cases coded <;> simp only [h, Bool.false_eq_true, if_false, ite_false] <;> try rfl

theorem hasLoggedToday_saveCodedResponse (u : User) (today : Int) (coded : Bool) :
    hasLoggedToday (saveCodedResponse u today coded) today = true := by
  unfold hasLoggedToday findLog
  rw [saveCodedResponse_dailyLog]
  by_cases h : (u.dailyLog.find? (fun l => l.date == today)).isSome
  · simp only [h, if_true]
    rw [find?_updateFirst_coded]
    cases hfind : u.dailyLog.find? (fun l => l.date == today) with
    | none => rw [hfind] at h; simp at h
    | some e => simp
  · rw [Bool.not_eq_true] at h
    simp only [h, Bool.false_eq_true, if_false]
    have hn : u.dailyLog.find? (fun l => l.date == today) = none := by
      cases hfind : u.dailyLog.find? (fun l => l.date == today) with
      | none => rfl
      | some e => rw [hfind] at h; simp at h
    rw [List.find?_append, hn]
    simp [List.find?]

theorem saveCodedResponse_currentStreak (u : User) (today : Int) (coded : Bool) :
    (saveCodedResponse u today coded).currentStreak = newStreakVal u today coded := by
  unfold saveCodedResponse newStreakVal
  by_cases h : (findLog u today).isSome <;> cases coded <;> simp [h]

theorem saveCodedResponse_longestStreak (u : User) (today : Int) (coded : Bool) :
    (saveCodedResponse u today coded).longestStreak =
      if coded then
        (if newStreakVal u today coded > u.longestStreak then newStreakVal u today coded
         else u.longestStreak)
      else u.longestStreak := by
  unfold saveCodedResponse newStreakVal
  by_cases h : (findLog u today).isSome <;> cases coded <;> simp [h]

theorem saveCodedResponse_lastResponseDate (u : User) (today : Int) (coded : Bool) :
    (saveCodedResponse u today coded).lastResponseDate = some today := by
  unfold saveCodedResponse
  by_cases h : (findLog u today).isSome <;> cases coded <;> simp [h]

theorem saveCodedResponse_conversationState (u : User) (today : Int) (coded : Bool) :
    (saveCodedResponse u today coded).conversationState =
      some (if coded then "what_done" else "why_not") := by
  unfold saveCodedResponse
  by_cases h : (findLog u today).isSome <;> cases coded <;> simp [h]

theorem createTodaysLog_lastMorningReminder (u : User) (today : Int) :
    (createTodaysLog u today).lastMorningReminder = u.lastMorningReminder := by
  unfold createTodaysLog
  split_ifs <;> rfl

theorem morningTick_cases (u : User) (ct : String) (today : Int) (ok : Bool) :
    ((morningTick u ct today ok).2 = 0 ∧
      (morningTick u ct today ok).1.lastMorningReminder = u.lastMorningReminder) ∨
    ((morningTick u ct today ok).2 = 1 ∧
      (morningTick u ct today ok).1.lastMorningReminder = some today) := by
  unfold morningTick sendMorningReminder
  split_ifs with h1 h2
  · right
    exact ⟨rfl, rfl⟩
  · left
    exact ⟨rfl, createTodaysLog_lastMorningReminder u today⟩
  · left
    exact ⟨rfl, rfl⟩

theorem eveningTick_cases (u : User) (ct : String) (today : Int) (ok : Bool) :
    ((eveningTick u ct today ok).2 = 0 ∧
      (eveningTick u ct today ok).1.lastEveningReminder = u.lastEveningReminder) ∨
    ((eveningTick u ct today ok).2 = 1 ∧
      (eveningTick u ct today ok).1.lastEveningReminder = some today) := by
  unfold eveningTick sendEveningReminder
  split_ifs with h1 h2 h3
  · left; exact ⟨rfl, rfl⟩
  · right; exact ⟨rfl, rfl⟩
  · left; exact ⟨rfl, rfl⟩
  · left; exact ⟨rfl, rfl⟩

theorem morningTicks_marked (today : Int) (ticks : List (String × Bool)) :
    ∀ u : User, u.lastMorningReminder = some today →
      (morningTicks u today ticks).2 = 0 ∧
      (morningTicks u today ticks).1.lastMorningReminder = some today := by
  induction ticks with
  | nil => intro u h; exact ⟨rfl, h⟩
  | cons t ts ih =>
    intro u h
    have hel : morningEligible u t.1 today = false := by
      unfold morningEligible
      simp [h]
    unfold morningTicks morningTick
    rw [hel]
    simp only [Bool.false_eq_true, if_false]
    obtain ⟨h1, h2⟩ := ih u h
    exact ⟨by simpa using h1, h2⟩

theorem eveningTicks_marked (today : Int) (ticks : List (String × Bool)) :
    ∀ u : User, u.lastEveningReminder = some today →
      (eveningTicks u today ticks).2 = 0 ∧
      (eveningTicks u today ticks).1.lastEveningReminder = some today := by
  induction ticks with
  | nil => intro u h; exact ⟨rfl, h⟩
  | cons t ts ih =>
    intro u h
    have hel : eveningEligible u t.1 today = false := by
      unfold eveningEligible
      simp [h]
    unfold eveningTicks eveningTick
    rw [hel]
    simp only [Bool.false_eq_true, if_false]
    obtain ⟨h1, h2⟩ := ih u h
    exact ⟨by simpa using h1, h2⟩

theorem morningTicks_le_one (today : Int) (ticks : List (String × Bool)) :
    ∀ u : User, (morningTicks u today ticks).2 ≤ 1 := by
  induction ticks with
  | nil => intro u; exact Nat.zero_le 1
  | cons t ts ih =>
    intro u
    show (morningTick u t.1 today t.2).2 + (morningTicks (morningTick u t.1 today t.2).1 today ts).2 ≤ 1
    rcases morningTick_cases u t.1 today t.2 with ⟨hz, _⟩ | ⟨ho, hm⟩
    · rw [hz]
      simpa using ih (morningTick u t.1 today t.2).1
    · rw [ho, (morningTicks_marked today ts _ hm).1]

theorem eveningTicks_le_one (today : Int) (ticks : List (String × Bool)) :
    ∀ u : User, (eveningTicks u today ticks).2 ≤ 1 := by
  induction ticks with
  | nil => intro u; exact Nat.zero_le 1
  | cons t ts ih =>
    intro u
    show (eveningTick u t.1 today t.2).2 + (eveningTicks (eveningTick u t.1 today t.2).1 today ts).2 ≤ 1
    rcases eveningTick_cases u t.1 today t.2 with ⟨hz, _⟩ | ⟨ho, hm⟩
    · rw [hz]
      simpa using ih (eveningTick u t.1 today t.2).1
    · rw [ho, (eveningTicks_marked today ts _ hm).1]

theorem updateFirst_ne_nil (p : DayLog → Bool) (f : DayLog → DayLog)
    (l : List DayLog) (h : l ≠ []) : updateFirst p f l ≠ [] := by
  cases l with
  | nil => exact absurd rfl h
  | cons x xs =>
    unfold updateFirst
    split_ifs <;> simp

theorem keepsLog_saveMorningMood (u : User) (today : Int) (mood : String) :
    keepsLog u (saveMorningMood u today mood) := by
  unfold keepsLog saveMorningMood
  split_ifs with hf
  · exact ⟨fun h => updateFirst_ne_nil _ _ _ h, le_refl _⟩
  · exact ⟨fun h => updateFirst_ne_nil _ _ _ (by simp), le_refl _⟩

theorem keepsLog_saveEveningMood (u : User) (today : Int) (mood : String) :
    keepsLog u (saveEveningMood u today mood) := by
  unfold keepsLog saveEveningMood
  split_ifs with hf
  · exact ⟨fun h => updateFirst_ne_nil _ _ _ h, le_refl _⟩
  · exact ⟨fun h => updateFirst_ne_nil _ _ _ (by simp), le_refl _⟩

theorem keepsLog_saveTodaysPlan (u : User) (today : Int) (plan : String) :
    keepsLog u (saveTodaysPlan u today plan) :=
  ⟨fun h => updateFirst_ne_nil _ _ _ h, le_refl _⟩

theorem keepsLog_saveWhyNot (u : User) (today : Int) (reason : String) :
    keepsLog u (saveWhyNot u today reason) :=
  ⟨fun h => updateFirst_ne_nil _ _ _ h, le_refl _⟩

theorem keepsLog_saveWhatDone (u : User) (today : Int) (text : String) :
    keepsLog u (saveWhatDone u today text) :=
  ⟨fun h => updateFirst_ne_nil _ _ _ h, le_refl _⟩

theorem keepsLog_saveWhatLearned (u : User) (today : Int) (text : String) :
    keepsLog u (saveWhatLearned u today text) :=
  ⟨fun h => updateFirst_ne_nil _ _ _ h, le_refl _⟩

theorem saveCodedResponse_longest_mono (u : User) (today : Int) (coded : Bool) :
    u.longestStreak ≤ (saveCodedResponse u today coded).longestStreak := by
  rw [saveCodedResponse_longestStreak]
  cases coded
  · simp
  · simp only [if_true, ite_true]
    split_ifs <;> omega

theorem keepsLog_saveCodedResponse (u : User) (today : Int) (coded : Bool) :
    keepsLog u (saveCodedResponse u today coded) := by
  refine ⟨?_, saveCodedResponse_longest_mono u today coded⟩
  intro h
  rw [saveCodedResponse_dailyLog]
  split_ifs with hf
  · exact updateFirst_ne_nil _ _ _ h
  · simp

theorem keepsLog_handleYesCommand (u : User) (today : Int) (nowH nowM : Nat) :
    keepsLog u (handleYesCommand u today nowH nowM).1 := by
  unfold handleYesCommand
  split_ifs with h1 h2
  · exact ⟨fun h => h, le_refl _⟩
  · exact ⟨fun h => h, le_refl _⟩
  · exact keepsLog_saveCodedResponse u today true

theorem keepsLog_handleNoCommand (u : User) (today : Int) (nowH nowM : Nat) :
    keepsLog u (handleNoCommand u today nowH nowM).1 := by
  unfold handleNoCommand
  split_ifs with h1 h2
  · exact ⟨fun h => h, le_refl _⟩
  · exact ⟨fun h => h, le_refl _⟩
  · exact keepsLog_saveCodedResponse u today false

theorem keepsLog_handleGreeting (u : User) (today : Int) (nowH nowM : Nat) :
    keepsLog u (handleGreeting u today nowH nowM).1 := by
  unfold handleGreeting setConversationState
  split_ifs <;> exact ⟨fun h => h, le_refl _⟩

theorem keepsLog_handleConversation (u : User) (input inputLower : String) (today : Int) :
    keepsLog u (handleConversation u input inputLower today).1 := by
  unfold handleConversation
  split
  · exact keepsLog_saveMorningMood u today input
  · exact keepsLog_saveTodaysPlan u today input
  · exact keepsLog_saveEveningMood u today input
  · split_ifs
    · exact keepsLog_saveCodedResponse u today true
    · exact keepsLog_saveCodedResponse u today false
    · exact ⟨fun h => h, le_refl _⟩
  · exact keepsLog_saveWhatDone u today input
  · exact keepsLog_saveWhatLearned u today input
  · exact keepsLog_saveWhyNot u today input
  · exact ⟨fun h => h, le_refl _⟩

theorem keepsLog_handleMessage (u : User) (text : String) (today : Int)
    (nowH nowM : Nat) (hc : u.onboardingComplete = true)
    (hne : toLowerStr (jsTrim text) ≠ "confirm reset") :
    keepsLog u (handleMessage u text today nowH nowM).1 := by
  unfold handleMessage
  rw [hc]
  simp only [Bool.not_true, Bool.false_eq_true, if_false, ite_false]
  by_cases hs : u.conversationState.isSome
  · simp only [hs, if_true, ite_true]
    exact keepsLog_handleConversation u (jsTrim text) (toLowerStr (jsTrim text)) today
  · simp only [hs, Bool.false_eq_true, if_false, ite_false]
    split_ifs with h1 h2 h3 h4 h5 h6 h7 h8
    · exact keepsLog_handleGreeting u today nowH nowM
    · exact keepsLog_handleYesCommand u today nowH nowM
    · exact keepsLog_handleNoCommand u today nowH nowM
    · exact ⟨fun h => h, le_refl _⟩
    · unfold handleSummary
      exact ⟨fun h => h, le_refl _⟩
    · exact ⟨fun h => h, le_refl _⟩
    · unfold handleReset
      split_ifs <;> exact ⟨fun h => h, le_refl _⟩
    · exact absurd (by simpa using h8) hne
    · exact ⟨fun h => h, le_refl _⟩

end Lemmas

/-- C1: invoking the streak computation with `coded = true` and a zero day
difference (`today` equal to `lastResponseDate`).  The alternate
`updateStreak` leaves `currentStreak` unchanged at the previous value (its
zero-difference branch is a no-op), but `saveCodedResponse` in
services/storage.js collapses the streak to 1 (`diffDays === 1 ? +1 : 1`),
contradicting the required idempotent re-entry: with a previous streak of
5 it produces 1, not 5 (and double-counts `totalDaysCoded`). -/
theorem saveCodedResponse_zero_diff_divergence :
    (saveCodedResponse zeroDiffUser 100 true).currentStreak = 1 ∧
    (updateStreak zeroDiffUser 100 true).currentStreak = 5 ∧
    zeroDiffUser.currentStreak = 5 ∧ zeroDiffUser.lastResponseDate = some 100 := by
  decide

/-- C2: the streak accountant cases of `saveCodedResponse`: a negative
answer zeroes the streak and leaves the longest unchanged; a positive
answer with no prior response day starts at 1, one-day gap increments,
longer gap restarts at 1; and the longest streak is always the max of the
previous longest and the new streak. -/
theorem saveCodedResponse_streak_cases (u : User) (today : Int)
    (hL : 0 ≤ u.longestStreak) :
    (saveCodedResponse u today false).currentStreak = 0 ∧
    (saveCodedResponse u today false).longestStreak = u.longestStreak ∧
    (u.lastResponseDate = none → (saveCodedResponse u today true).currentStreak = 1) ∧
    (∀ last, u.lastResponseDate = some last → today - last = 1 →
      (saveCodedResponse u today true).currentStreak = u.currentStreak + 1) ∧
    (∀ last, u.lastResponseDate = some last → 1 < today - last →
      (saveCodedResponse u today true).currentStreak = 1) ∧
    (∀ coded, (saveCodedResponse u today coded).longestStreak =
      max u.longestStreak (saveCodedResponse u today coded).currentStreak) := by
  refine ⟨?_, ?_, ?_, ?_, ?_, ?_⟩
  · rw [saveCodedResponse_currentStreak]; simp [newStreakVal]
  · rw [saveCodedResponse_longestStreak]; simp
  · intro hml
    rw [saveCodedResponse_currentStreak]; simp [newStreakVal, hml]
  · intro last hml hdiff
    rw [saveCodedResponse_currentStreak]
    simp [newStreakVal, hml, hdiff]
  · intro last hml hdiff
    rw [saveCodedResponse_currentStreak]
    have : (today - last == 1) = false := by simp; omega
    simp [newStreakVal, hml, this]
  · intro coded
    rw [saveCodedResponse_longestStreak, saveCodedResponse_currentStreak]
    cases coded
    · simp [newStreakVal]; omega
    · simp only [if_true, ite_true]
      rcases lt_or_le u.longestStreak (newStreakVal u today true) with hlt | hle
      · rw [if_pos (by omega), max_eq_right (le_of_lt hlt)]
      · rw [if_neg (by omega), max_eq_left hle]

/-- C2 witness: the accountant cases evaluated on a concrete record (last
answer on day 4, streak 2, longest 3, answering on day 5). -/
theorem saveCodedResponse_streak_cases_witness :
    (saveCodedResponse c2User 5 true).currentStreak = c2User.currentStreak + 1 :=
  ((saveCodedResponse_streak_cases c2User 5 (by decide)).2.2.2.1) 4 rfl (by decide)

/-- C3: the time-lock gate accepts exactly when the current hour/minute
pair is at or past the evening hour/minute pair, i.e. iff
`nowH * 60 + nowM ≥ eveH * 60 + eveM`, provided both minute fields are
actual minutes (below 60). -/
theorem canLogCompletion_iff (u : User) (nowH nowM : Nat)
    (hn : nowM < 60) (he : (splitHM u.eveningReminderTime).2 < 60) :
    canLogCompletion u nowH nowM = true ↔
      (splitHM u.eveningReminderTime).1 * 60 + (splitHM u.eveningReminderTime).2 ≤
        nowH * 60 + nowM := by
  unfold canLogCompletion
  generalize splitHM u.eveningReminderTime = e at he ⊢
  obtain ⟨eh, em⟩ := e
  simp only at he ⊢
  split_ifs with h1 h2
  · simp only [true_iff]
    omega
  · simp only [true_iff]
    simp at h2
    omega
  · simp only [Bool.false_eq_true, false_iff, not_le]
    simp at h1 h2
    by_cases hEq : nowH = eh
    · have := h2 hEq
      omega
    · omega

/-- C3 witness: gate evaluated at the boundary minute (20:00 against the
default 20:00 evening time) via the equivalence. -/
theorem canLogCompletion_iff_witness :
    canLogCompletion userBase 20 0 = true :=
  (canLogCompletion_iff userBase 20 0 (by decide) (by decide)).mpr (by decide)

/-- C6: every storage operation except the full reset preserves the streak
invariant (`0 ≤ currentStreak ≤ longestStreak`) and never decreases
`longestStreak`; the reset re-establishes the invariant with both counters
zero. -/
theorem applyOp_streak_invariant (op : Op) (u : User) (h : streakInv u) :
    (op ≠ Op.opReset →
      streakInv (applyOp op u) ∧ u.longestStreak ≤ (applyOp op u).longestStreak) ∧
    streakInv (applyOp Op.opReset u) ∧
    (applyOp Op.opReset u).currentStreak = 0 ∧
    (applyOp Op.opReset u).longestStreak = 0 := by
  obtain ⟨h0, h1⟩ := h
  refine ⟨?_, ⟨le_refl 0, le_refl 0⟩, rfl, rfl⟩
  intro hne
  cases op with
  | opSaveCoded today coded =>
    show streakInv (saveCodedResponse u today coded) ∧
      u.longestStreak ≤ (saveCodedResponse u today coded).longestStreak
    unfold streakInv
    rw [saveCodedResponse_currentStreak, saveCodedResponse_longestStreak]
    unfold newStreakVal
    cases coded
    · simp only [Bool.false_eq_true, if_false, ite_false]
      exact ⟨⟨le_refl 0, by omega⟩, le_refl _⟩
    · simp only [if_true, ite_true]
      cases hml : u.lastResponseDate <;> simp only <;> split_ifs <;>
        constructorm* _ ∧ _ <;> omega
  | opReset => exact absurd rfl hne
  | _ =>
    first
    | exact ⟨⟨h0, h1⟩, le_refl _⟩
    | · simp only [applyOp, createTodaysLog, saveMorningMood, saveTodaysPlan,
          saveEveningMood, saveWhyNot, saveWhatDone, saveWhatLearned, setUserName,
          setMorningReminderTime, setEveningReminderTime, setConversationState,
          setOnboardingStep, markMorningReminderSent, markEveningReminderSent, streakInv]
        try split_ifs
        all_goals exact ⟨⟨h0, h1⟩, le_refl _⟩

/-- C6 witness: the invariant carried through a concrete positive answer,
and the reset outcome, on the day-4 record. -/
theorem applyOp_streak_invariant_witness :
    streakInv (applyOp (Op.opSaveCoded 5 true) c2User) :=
  (((applyOp_streak_invariant (Op.opSaveCoded 5 true) c2User (by decide)).1
    (by decide)).1)

/-- C7: when `parseTime` rejects the input, both time-valued onboarding
steps reply with a format hint and return the record unchanged (step,
reminder times and `onboardingComplete` untouched). -/
theorem handleOnboarding_time_reprompt (u : User) (input : String)
    (hp : parseTime input = none) :
    (u.onboardingStep = "ask_morning" →
      handleOnboarding u input = (u, [Msg.tryMorningFormat])) ∧
    (u.onboardingStep = "ask_evening" →
      handleOnboarding u input = (u, [Msg.tryEveningFormat])) := by
  constructor <;> intro hstep <;> unfold handleOnboarding <;> rw [hstep] <;> simp [hp]

/-- C7 witness: the malformed input 25:00 is rejected at the morning step
of a concrete record. -/
theorem handleOnboarding_time_reprompt_witness :
    handleOnboarding askMorningUser "25:00" = (askMorningUser, [Msg.tryMorningFormat]) :=
  (handleOnboarding_time_reprompt askMorningUser "25:00" (by decide)).1 rfl

/-- C9 counterexample: `createTodaysLog` (one of the operations that append
a DayEntry) pushes past the 90-entry cap: on a record already holding 90
entries it produces 91. -/
theorem createTodaysLog_exceeds_cap :
    90 < (createTodaysLog fullLogUser 1).dailyLog.length := by decide

/-- C9 amended: the alternate `addDailyLog` does cap the log at the 90 most
recent entries, but the append path of `createTodaysLog` in
services/storage.js grows the log without bound. -/
theorem addDailyLog_cap (u : User) (date : Int) (coded : Bool)
    (w l : Option String) (today : Int) :
    (addDailyLog u date coded w l).dailyLog.length ≤ 90 ∧
    ((findLog u today).isNone = true →
      (createTodaysLog u today).dailyLog.length = u.dailyLog.length + 1) := by
  constructor
  · unfold addDailyLog
    cases hidx : u.dailyLog.findIdx? (fun e => e.date == date) <;>
      simp only [hidx] <;> split_ifs <;>
      simp_all [List.length_drop, List.length_set, List.length_append] <;> omega
  · intro hfind
    unfold createTodaysLog
    simp [hfind]

/-- C9 amended witness: appending to an empty record grows the log to one
entry. -/
theorem addDailyLog_cap_witness :
    (createTodaysLog userBase 1).dailyLog.length = userBase.dailyLog.length + 1 :=
  (addDailyLog_cap userBase 0 true none none 1).2 (by decide)

/-- C4: the idle yes/no day-log commands are idempotent per calendar day:
when the user already answered today, either command replies with the
already-logged notice and returns the record unchanged; and across two
invocations (at possibly different clock times) at most one mutates the
record: either the second call leaves the first result untouched, or the
first call already left the record untouched. -/
theorem dayLog_commands_idempotent (u : User) (today : Int)
    (nowH nowM nowH2 nowM2 : Nat) :
    (hasLoggedToday u today = true →
      handleYesCommand u today nowH nowM = (u, [Msg.alreadyLoggedYes]) ∧
      handleNoCommand u today nowH nowM = (u, [Msg.alreadyLoggedNo])) ∧
    ((handleYesCommand (handleYesCommand u today nowH nowM).1 today nowH2 nowM2).1 =
        (handleYesCommand u today nowH nowM).1 ∨
      (handleYesCommand u today nowH nowM).1 = u) ∧
    ((handleNoCommand (handleNoCommand u today nowH nowM).1 today nowH2 nowM2).1 =
        (handleNoCommand u today nowH nowM).1 ∨
      (handleNoCommand u today nowH nowM).1 = u) := by
  refine ⟨?_, ?_, ?_⟩
  · intro h
    constructor <;> simp [handleYesCommand, handleNoCommand, h]
  · by_cases h : hasLoggedToday u today = true
    · right
      simp [handleYesCommand, h]
    · by_cases hc : canLogCompletion u nowH nowM = true
      · left
        have h1 : (handleYesCommand u today nowH nowM).1 = saveCodedResponse u today true := by
          simp [handleYesCommand, h, hc, handleYes]
        rw [h1]
        simp [handleYesCommand, hasLoggedToday_saveCodedResponse]
      · right
        simp [handleYesCommand, h, hc]
  · by_cases h : hasLoggedToday u today = true
    · right
      simp [handleNoCommand, h]
    · by_cases hc : canLogCompletion u nowH nowM = true
      · left
        have h1 : (handleNoCommand u today nowH nowM).1 = saveCodedResponse u today false := by
          simp [handleNoCommand, h, hc, handleNo]
        rw [h1]
        simp [handleNoCommand, hasLoggedToday_saveCodedResponse]
      · right
        simp [handleNoCommand, h, hc]

/-- C4 witness: a second affirmative command on the day-5 logged record is
rejected with the already-logged notice and no record change. -/
theorem dayLog_commands_idempotent_witness :
    handleYesCommand loggedIdleUser 5 21 0 = (loggedIdleUser, [Msg.alreadyLoggedYes]) :=
  ((dayLog_commands_idempotent loggedIdleUser 5 21 0 21 0).1 (by decide)).1

/-- C10: in the `evening_check` conversation state an inbound yes/y is
recorded through `saveCodedResponse` with no already-logged or time-lock
guard (the conclusion holds for every record in that state, in particular
one that already answered today, at any clock time); on the idle path the
same text is first checked against the already-logged guard and rejected
without mutation. -/
theorem eveningCheck_unguarded (u : User) (today : Int) (nowH nowM : Nat)
    (hc : u.onboardingComplete = true) :
    (u.conversationState = some "evening_check" →
      (handleMessage u "yes" today nowH nowM).1 = saveCodedResponse u today true ∧
      (handleMessage u "y" today nowH nowM).1 = saveCodedResponse u today true) ∧
    (u.conversationState = none → hasLoggedToday u today = true →
      (handleMessage u "yes" today nowH nowM).1 = u) := by
  have eyes : toLowerStr "yes" = "yes" := by decide
  have ey : toLowerStr "y" = "y" := by decide
  have tyes : jsTrim "yes" = "yes" := by decide
  have ty : jsTrim "y" = "y" := by decide
  constructor
  · intro hs
    constructor <;>
      simp [handleMessage, hc, hs, eyes, ey, tyes, ty, handleConversation, handleYes]
  · intro hs hl
    simp [handleMessage, hc, hs, eyes, tyes, handleYesCommand, hl]

/-- C10 witness: the evening-check record that already answered on day 5
is mutated again by a yes at 10:00 (before its 20:00 evening time), while
the same record in the idle state is rejected unchanged. -/
theorem eveningCheck_unguarded_witness :
    (handleMessage eveningCheckUser "yes" 5 10 0).1 =
      saveCodedResponse eveningCheckUser 5 true :=
  ((eveningCheck_unguarded eveningCheckUser 5 10 0 (by decide)).1 (by decide)).1

/-- C8: per user and calendar day the scheduler sends at most one morning
and at most one evening reminder: eligibility requires the corresponding
last-notified field to differ from today, a successful send sets that
field to today and opens the matching initial conversation state
(`morning_mood` / `evening_mood`), and over any same-day sequence of ticks
the delivered count of each kind is at most one. -/
theorem scheduler_once_per_day (u : User) (today : Int) (ct : String)
    (ticks : List (String × Bool)) :
    (morningEligible u ct today = true → u.lastMorningReminder ≠ some today) ∧
    (eveningEligible u ct today = true → u.lastEveningReminder ≠ some today) ∧
    (sendMorningReminder u today true).1.lastMorningReminder = some today ∧
    (sendMorningReminder u today true).1.conversationState = some "morning_mood" ∧
    (hasLoggedToday u today = false →
      (sendEveningReminder u today true).1.lastEveningReminder = some today ∧
      (sendEveningReminder u today true).1.conversationState = some "evening_mood") ∧
    (morningTicks u today ticks).2 ≤ 1 ∧
    (eveningTicks u today ticks).2 ≤ 1 := by
  refine ⟨?_, ?_, ?_, ?_, ?_, morningTicks_le_one today ticks u, eveningTicks_le_one today ticks u⟩
  · intro h
    unfold morningEligible at h
    simp at h
    exact h.2
  · intro h
    unfold eveningEligible at h
    simp at h
    exact h.2
  · unfold sendMorningReminder
    simp
  · unfold sendMorningReminder
    simp
  · intro h
    unfold sendEveningReminder
    rw [h]
    exact ⟨rfl, rfl⟩

/-- C5: two-phase reset.  The reset-request command mutates nothing (it
only previews the loss); an idle `confirm reset` runs `resetUserData`,
which clears `currentStreak`, `longestStreak`, `totalDaysCoded`, the
`dailyLog` and `lastResponseDate` while keeping identity, name, both
reminder times and the onboarding fields; and any other inbound text
clears no history: the daily log stays non-empty and the longest streak
never drops. -/
theorem reset_two_phase (u : User) (today : Int) (nowH nowM : Nat) (text : String)
    (hc : u.onboardingComplete = true) :
    (u.conversationState = none →
      (handleMessage u "reset" today nowH nowM).1 = u) ∧
    (u.conversationState = none →
      handleMessage u "confirm reset" today nowH nowM =
        (resetUserData u, [Msg.freshStart])) ∧
    ((resetUserData u).currentStreak = 0 ∧ (resetUserData u).longestStreak = 0 ∧
     (resetUserData u).totalDaysCoded = 0 ∧ (resetUserData u).dailyLog = [] ∧
     (resetUserData u).lastResponseDate = none ∧
     (resetUserData u).phone = u.phone ∧ (resetUserData u).name = u.name ∧
     (resetUserData u).morningReminderTime = u.morningReminderTime ∧
     (resetUserData u).eveningReminderTime = u.eveningReminderTime ∧
     (resetUserData u).onboardingComplete = u.onboardingComplete ∧
     (resetUserData u).onboardingStep = u.onboardingStep) ∧
    (toLowerStr (jsTrim text) ≠ "confirm reset" → u.dailyLog ≠ [] →
      (handleMessage u text today nowH nowM).1.dailyLog ≠ [] ∧
      u.longestStreak ≤ (handleMessage u text today nowH nowM).1.longestStreak) := by
  have t1 : jsTrim "reset" = "reset" := by decide
  have l1 : toLowerStr "reset" = "reset" := by decide
  have t2 : jsTrim "confirm reset" = "confirm reset" := by decide
  have l2 : toLowerStr "confirm reset" = "confirm reset" := by decide
  refine ⟨?_, ?_, ⟨rfl, rfl, rfl, rfl, rfl, rfl, rfl, rfl, rfl, rfl, rfl⟩, ?_⟩
  · intro hs
    simp only [handleMessage, hc, hs, t1, l1]
    simp [handleReset]
    split_ifs <;> rfl
  · intro hs
    simp only [handleMessage, hc, hs, t2, l2]
    simp
  · intro hne hlog
    obtain ⟨h1, h2⟩ := keepsLog_handleMessage u text today nowH nowM hc hne
    exact ⟨h1 hlog, h2⟩

/-- C5 witness: on a record with history, the reset preview leaves the
record unchanged, an unrelated message (status) clears nothing, and the
confirmed reset clears the counters and log while keeping the times. -/
theorem reset_two_phase_witness :
    (handleMessage historyUser "reset" 5 21 0).1 = historyUser ∧
    handleMessage historyUser "confirm reset" 5 21 0 =
      (resetUserData historyUser, [Msg.freshStart]) ∧
    (handleMessage historyUser "status" 5 21 0).1.dailyLog ≠ [] :=
  ⟨(reset_two_phase historyUser 5 21 0 "status" (by decide)).1 (by decide),
   (reset_two_phase historyUser 5 21 0 "status" (by decide)).2.1 (by decide),
   ((reset_two_phase historyUser 5 21 0 "status" (by decide)).2.2.2
      (by decide) (by decide)).1⟩

/-- C8 witness: an eligible user hit by two matching 08:00 ticks receives
exactly at most one morning reminder, and a successful evening send on the
unanswered record marks today and opens `evening_mood`. -/
theorem scheduler_once_per_day_witness :
    (morningTicks schedUser 5 [("08:00", true), ("08:00", true)]).2 ≤ 1 ∧
    (sendEveningReminder schedUser 5 true).1.lastEveningReminder = some 5 ∧
    schedUser.lastMorningReminder ≠ some 5 :=
  ⟨(scheduler_once_per_day schedUser 5 "08:00"
      [("08:00", true), ("08:00", true)]).2.2.2.2.2.1,
   ((scheduler_once_per_day schedUser 5 "08:00" []).2.2.2.2.1 (by decide)).1,
   (scheduler_once_per_day schedUser 5 "08:00" []).1 (by decide)⟩

end Bot
